import Mathlib

/-!
# Sanjeevani pharmacogenomic pipeline — verification development

A shallow embedding of the core analysis pipeline of the Sanjeevani
repository (`src/lib/vcf-parser.ts`, `src/lib/cpic-data.ts`,
`src/lib/risk-engine.ts`) together with theorems settling the spec's
claims about it.

Modelling conventions:
* JavaScript numbers are modelled as `ℚ` (all arithmetic the pipeline
  performs on them is exact decimal arithmetic); genomic positions are `Int`.
* JavaScript strings are Lean `String`s; the string helpers below are
  written over `String.data` so that every definition evaluates by kernel
  reduction.
* `Map`/`Set` objects are modelled as association lists / lists with
  last-write-wins lookup and membership, matching JS `Map.set`/`Set.add`.
* Human-readable *message* texts of per-line warnings, the guidance /
  recommendation prose, patient ids and timestamps are not modelled:
  no property of the spec observes them.  Warnings keep the line number,
  field name and severity; top-level `error` strings are kept verbatim.
-/

set_option linter.unusedVariables false

/- Let concrete runs of the pipeline evaluate by `decide`: the Batteries
rational-arithmetic primitives are `irreducible` by default, which blocks
whole-program evaluation of closed terms. -/
attribute [local semireducible] Rat.add Rat.mul Rat.sub Rat.inv Rat.ofScientific

namespace Sanjeevani

/-! ## Enumerations (src/lib/types.ts) -/

inductive RiskLabel where
  | Safe | AdjustDosage | Toxic | Ineffective | Unknown
  deriving DecidableEq, Inhabited

inductive Severity where
  | none | low | moderate | high | critical
  deriving DecidableEq, Inhabited

inductive Phenotype where
  | PM | IM | NM | RM | URM | Unknown
  deriving DecidableEq, Inhabited

inductive GeneSymbol where
  | CYP2D6 | CYP2C19 | CYP2C9 | SLCO1B1 | TPMT | DPYD
  deriving DecidableEq, Inhabited

inductive DrugName where
  | CODEINE | WARFARIN | CLOPIDOGREL | SIMVASTATIN | AZATHIOPRINE | FLUOROURACIL
  deriving DecidableEq, Inhabited

inductive FunctionalStatus where
  | no_function | decreased_function | normal_function | increased_function
  deriving DecidableEq, Inhabited

def GeneSymbol.toStr : GeneSymbol → String
  | .CYP2D6 => "CYP2D6" | .CYP2C19 => "CYP2C19" | .CYP2C9 => "CYP2C9"
  | .SLCO1B1 => "SLCO1B1" | .TPMT => "TPMT" | .DPYD => "DPYD"

/-- `SUPPORTED_GENES` from types.ts (as the list of gene symbol strings). -/
def SUPPORTED_GENES : List String :=
  ["CYP2D6", "CYP2C19", "CYP2C9", "SLCO1B1", "TPMT", "DPYD"]

/-- `SUPPORTED_DRUGS` from types.ts, in source order. -/
def SUPPORTED_DRUGS : List String :=
  ["CODEINE", "WARFARIN", "CLOPIDOGREL", "SIMVASTATIN", "AZATHIOPRINE", "FLUOROURACIL"]

/-- Parse a gene symbol string (the `SUPPORTED_GENES.includes` check plus the
cast to `GeneSymbol` the source performs). -/
def geneFromString : String → Option GeneSymbol
  | "CYP2D6" => some .CYP2D6 | "CYP2C19" => some .CYP2C19 | "CYP2C9" => some .CYP2C9
  | "SLCO1B1" => some .SLCO1B1 | "TPMT" => some .TPMT | "DPYD" => some .DPYD
  | _ => Option.none

/-- Parse a drug name string (the `SUPPORTED_DRUGS.includes` check plus the
cast to `DrugName` the source performs). -/
def drugFromString : String → Option DrugName
  | "CODEINE" => some .CODEINE | "WARFARIN" => some .WARFARIN
  | "CLOPIDOGREL" => some .CLOPIDOGREL | "SIMVASTATIN" => some .SIMVASTATIN
  | "AZATHIOPRINE" => some .AZATHIOPRINE | "FLUOROURACIL" => some .FLUOROURACIL
  | _ => Option.none

/-! ## JavaScript string primitives

All written over `String.data` (the list-of-characters model of `String`)
so that concrete runs reduce in the kernel. -/

/-- JS `\s` whitespace (restricted to the ASCII whitespace that can occur in
the pipeline's inputs). -/
def isWS (c : Char) : Bool :=
  c = ' ' || c = '\t' || c = '\r' || c = '\n'

/-- `s.split(sep)` for a single-character separator: keeps empty tokens,
`"".split(sep) = [""]`. -/
def splitCharAux (sep : Char) : List Char → List Char → List String
  | [], acc => [⟨acc.reverse⟩]
  | c :: cs, acc =>
    if c = sep then ⟨acc.reverse⟩ :: splitCharAux sep cs []
    else splitCharAux sep cs (c :: acc)

def jsSplitChar (s : String) (sep : Char) : List String :=
  splitCharAux sep s.data []

/-- `s.split(/\s+/)`: maximal whitespace runs separate tokens; a leading or
trailing run contributes an empty token, `"".split(/\s+/) = [""]`.
The `fuel` parameter (initialized to the character count, which the
consumption of at least one character per emitted token never exhausts)
keeps the recursion structural. -/
def splitWSAux : Nat → List Char → List Char → List String
  | 0, _, acc => [⟨acc.reverse⟩]
  | fuel + 1, cs, acc =>
    match cs with
    | [] => [⟨acc.reverse⟩]
    | c :: cs' =>
      if isWS c then ⟨acc.reverse⟩ :: splitWSAux fuel (cs'.dropWhile isWS) []
      else splitWSAux fuel cs' (c :: acc)

def jsSplitWS (s : String) : List String :=
  splitWSAux s.data.length s.data []

/-- JS `String.prototype.trim`. -/
def jsTrim (s : String) : String :=
  ⟨((s.data.dropWhile isWS).reverse.dropWhile isWS).reverse⟩

/-- JS `String.prototype.toLowerCase` (ASCII). -/
def jsToLower (s : String) : String := ⟨s.data.map Char.toLower⟩

/-- JS `String.prototype.toUpperCase` (ASCII). -/
def jsToUpper (s : String) : String := ⟨s.data.map Char.toUpper⟩

/-- `line.startsWith('#')`. -/
def startsWithHash (s : String) : Bool :=
  match s.data with
  | [] => false
  | c :: _ => c = '#'

/-- `chrom.replace(/^chr/i, '')`: strip one leading case-insensitive `chr`. -/
def stripChr (s : String) : String :=
  match s.data with
  | c1 :: c2 :: c3 :: rest =>
    if c1.toLower = 'c' && c2.toLower = 'h' && c3.toLower = 'r' then ⟨rest⟩ else s
  | _ => s

def digitsVal (ds : List Char) : Nat :=
  ds.foldl (fun a c => a * 10 + (c.toNat - '0'.toNat)) 0

/-- JS `parseInt(s, 10)`: skip leading whitespace, optional sign, then the
maximal digit prefix; `none` models `NaN`. -/
def jsParseInt (s : String) : Option Int :=
  let cs := s.data.dropWhile isWS
  let signAndRest : Int × List Char :=
    match cs with
    | '-' :: r => (-1, r)
    | '+' :: r => (1, r)
    | _ => (1, cs)
  let ds := signAndRest.2.takeWhile Char.isDigit
  if ds.isEmpty then Option.none else some (signAndRest.1 * (digitsVal ds : Int))

/-- JS `parseFloat(s)` restricted to finite decimal notation (skip leading
whitespace, optional sign, digits, optional fraction, optional well-formed
exponent; a malformed exponent is ignored, as `parseFloat` stops parsing
there).  `none` models `NaN`.  The pipeline only ever asks whether the result
is a number below a threshold, for which this model agrees with JS on every
input the format admits. -/
def jsParseFloat (s : String) : Option ℚ :=
  let cs := s.data.dropWhile isWS
  let signAndRest : ℚ × List Char :=
    match cs with
    | '-' :: r => (-1, r)
    | '+' :: r => (1, r)
    | _ => (1, cs)
  let intDs := signAndRest.2.takeWhile Char.isDigit
  let rest1 := signAndRest.2.dropWhile Char.isDigit
  let fracAndRest : List Char × List Char :=
    match rest1 with
    | '.' :: r => (r.takeWhile Char.isDigit, r.dropWhile Char.isDigit)
    | _ => ([], rest1)
  if intDs.isEmpty && fracAndRest.1.isEmpty then Option.none
  else
    let mantissa : ℚ :=
      (digitsVal intDs : ℚ) + (digitsVal fracAndRest.1 : ℚ) / ((10 : ℚ) ^ fracAndRest.1.length)
    let expVal : Int :=
      match fracAndRest.2 with
      | 'e' :: r | 'E' :: r =>
        let eSignAndRest : Int × List Char :=
          match r with
          | '-' :: r2 => (-1, r2)
          | '+' :: r2 => (1, r2)
          | _ => (1, r)
        let eds := eSignAndRest.2.takeWhile Char.isDigit
        if eds.isEmpty then 0 else eSignAndRest.1 * (digitsVal eds : Int)
      | _ => 0
    some (signAndRest.1 * mantissa * (10 : ℚ) ^ expVal)

/-- JS `x || d` for an optional string `x` (empty string is falsy). -/
def jsOrD (o : Option String) (d : String) : String :=
  match o with
  | some s => if s = "" then d else s
  | Option.none => d

/-- Last-write-wins association-list lookup: models reading a key of a JS
object that was filled by successive assignments. -/
def infoGet (info : List (String × String)) (k : String) : Option String :=
  (info.reverse.find? (fun p => p.1 == k)).map (·.2)

/-! ## Reference catalog (src/lib/cpic-data.ts) -/

/-- `VariantDefinition` from cpic-data.ts. -/
structure VariantDefinition where
  rsid : String
  gene : GeneSymbol
  chromosome : String
  position37 : Int
  position38 : Int
  refAllele : String
  altAlleles : List String
  starAllele : String
  activityValue : ℚ
  functionalStatus : FunctionalStatus
  significance : String
  deriving DecidableEq, Inhabited

/-- `VARIANT_DATABASE` from cpic-data.ts, in source order. -/
def VARIANT_DATABASE : List VariantDefinition := [
  -- CYP2D6 (chr22)
  { rsid := "rs3892097", gene := .CYP2D6, chromosome := "22", position37 := 42526694, position38 := 42128945, refAllele := "C", altAlleles := ["T", "A"], starAllele := "*4", activityValue := 0, functionalStatus := .no_function, significance := "Splicing defect (IVS3+1G>A) — complete loss of enzyme activity" },
  { rsid := "rs5030655", gene := .CYP2D6, chromosome := "22", position37 := 42525085, position38 := 42127336, refAllele := "T", altAlleles := ["TA"], starAllele := "*6", activityValue := 0, functionalStatus := .no_function, significance := "Frameshift deletion — truncated non-functional protein" },
  { rsid := "rs1065852", gene := .CYP2D6, chromosome := "22", position37 := 42526763, position38 := 42129014, refAllele := "C", altAlleles := ["T"], starAllele := "*10", activityValue := 0.25, functionalStatus := .decreased_function, significance := "P34S missense — unstable enzyme with reduced catalytic activity" },
  { rsid := "rs16947", gene := .CYP2D6, chromosome := "22", position37 := 42524947, position38 := 42127198, refAllele := "G", altAlleles := ["A"], starAllele := "*2", activityValue := 1.0, functionalStatus := .normal_function, significance := "R296C — normal enzymatic function maintained" },
  { rsid := "rs1135840", gene := .CYP2D6, chromosome := "22", position37 := 42524244, position38 := 42126495, refAllele := "C", altAlleles := ["G"], starAllele := "*2", activityValue := 1.0, functionalStatus := .normal_function, significance := "S486T — normal function variant" },
  { rsid := "rs28371725", gene := .CYP2D6, chromosome := "22", position37 := 42526006, position38 := 42128257, refAllele := "C", altAlleles := ["T"], starAllele := "*41", activityValue := 0.5, functionalStatus := .decreased_function, significance := "Splicing defect — reduced mRNA expression and enzyme activity" },
  { rsid := "rs28371706", gene := .CYP2D6, chromosome := "22", position37 := 42522613, position38 := 42124864, refAllele := "C", altAlleles := ["T"], starAllele := "*17", activityValue := 0.5, functionalStatus := .decreased_function, significance := "T107I — reduced substrate affinity and catalytic activity" },
  { rsid := "rs5030862", gene := .CYP2D6, chromosome := "22", position37 := 42525772, position38 := 42128023, refAllele := "G", altAlleles := ["A"], starAllele := "*8", activityValue := 0, functionalStatus := .no_function, significance := "G169R — complete loss of function" },
  { rsid := "rs5030865", gene := .CYP2D6, chromosome := "22", position37 := 42524564, position38 := 42126815, refAllele := "T", altAlleles := ["C"], starAllele := "*14", activityValue := 0, functionalStatus := .no_function, significance := "P34S + G169R — non-functional enzyme" },
  { rsid := "rs769258", gene := .CYP2D6, chromosome := "22", position37 := 42526505, position38 := 42128756, refAllele := "G", altAlleles := ["A"], starAllele := "*3", activityValue := 0, functionalStatus := .no_function, significance := "Frameshift (2549delA) — no functional protein" },
  -- CYP2C19 (chr10)
  { rsid := "rs4244285", gene := .CYP2C19, chromosome := "10", position37 := 96541616, position38 := 94781859, refAllele := "G", altAlleles := ["A"], starAllele := "*2", activityValue := 0, functionalStatus := .no_function, significance := "Aberrant splice site — exon 5 skipping → premature stop" },
  { rsid := "rs4986893", gene := .CYP2C19, chromosome := "10", position37 := 96540410, position38 := 94780653, refAllele := "G", altAlleles := ["A"], starAllele := "*3", activityValue := 0, functionalStatus := .no_function, significance := "W212X premature stop codon — truncated non-functional protein" },
  { rsid := "rs12248560", gene := .CYP2C19, chromosome := "10", position37 := 96521657, position38 := 94761900, refAllele := "C", altAlleles := ["T"], starAllele := "*17", activityValue := 1.5, functionalStatus := .increased_function, significance := "Promoter variant -806C>T — increased transcription" },
  { rsid := "rs28399504", gene := .CYP2C19, chromosome := "10", position37 := 96522463, position38 := 94762706, refAllele := "A", altAlleles := ["G"], starAllele := "*4", activityValue := 0, functionalStatus := .no_function, significance := "Initiation codon variant — abolished translation" },
  -- CYP2C9 (chr10)
  { rsid := "rs1799853", gene := .CYP2C9, chromosome := "10", position37 := 96702047, position38 := 94942290, refAllele := "C", altAlleles := ["T"], starAllele := "*2", activityValue := 0.5, functionalStatus := .decreased_function, significance := "R144C missense — 30-40% reduced S-warfarin hydroxylation" },
  { rsid := "rs1057910", gene := .CYP2C9, chromosome := "10", position37 := 96741053, position38 := 94981296, refAllele := "A", altAlleles := ["C"], starAllele := "*3", activityValue := 0.25, functionalStatus := .decreased_function, significance := "I359L missense — 80-90% reduced S-warfarin hydroxylation" },
  { rsid := "rs56165452", gene := .CYP2C9, chromosome := "10", position37 := 96709039, position38 := 94949282, refAllele := "C", altAlleles := ["G"], starAllele := "*5", activityValue := 0.25, functionalStatus := .decreased_function, significance := "D360E — significantly reduced enzyme activity" },
  { rsid := "rs28371686", gene := .CYP2C9, chromosome := "10", position37 := 96731944, position38 := 94972187, refAllele := "A", altAlleles := ["G"], starAllele := "*6", activityValue := 0, functionalStatus := .no_function, significance := "Frameshift — non-functional enzyme" },
  -- SLCO1B1 (chr12)
  { rsid := "rs4149056", gene := .SLCO1B1, chromosome := "12", position37 := 21331549, position38 := 21178615, refAllele := "T", altAlleles := ["C"], starAllele := "*5", activityValue := 0, functionalStatus := .decreased_function, significance := "V174A — impaired OATP1B1 membrane localization, 3-4x increased statin AUC" },
  { rsid := "rs2306283", gene := .SLCO1B1, chromosome := "12", position37 := 21329738, position38 := 21176804, refAllele := "A", altAlleles := ["G"], starAllele := "*1B", activityValue := 1.0, functionalStatus := .normal_function, significance := "N130D — normal-to-increased transport function" },
  -- TPMT (chr6)
  { rsid := "rs1800462", gene := .TPMT, chromosome := "6", position37 := 18130918, position38 := 18139027, refAllele := "C", altAlleles := ["G"], starAllele := "*2", activityValue := 0, functionalStatus := .no_function, significance := "A80P — protein misfolding, complete loss of activity" },
  { rsid := "rs1800460", gene := .TPMT, chromosome := "6", position37 := 18130845, position38 := 18138954, refAllele := "C", altAlleles := ["T", "A"], starAllele := "*3B", activityValue := 0, functionalStatus := .no_function, significance := "A154T — accelerated degradation, undetectable enzyme" },
  { rsid := "rs1142345", gene := .TPMT, chromosome := "6", position37 := 18130687, position38 := 18138796, refAllele := "A", altAlleles := ["G"], starAllele := "*3C", activityValue := 0, functionalStatus := .no_function, significance := "Y240C — protein aggregation, complete catalytic loss" },
  -- DPYD (chr1)
  { rsid := "rs3918290", gene := .DPYD, chromosome := "1", position37 := 97915614, position38 := 97450058, refAllele := "C", altAlleles := ["T"], starAllele := "*2A", activityValue := 0, functionalStatus := .no_function, significance := "IVS14+1G>A — exon 14 skipping, no DPD enzyme produced" },
  { rsid := "rs55886062", gene := .DPYD, chromosome := "1", position37 := 98039419, position38 := 97573863, refAllele := "A", altAlleles := ["C"], starAllele := "*13", activityValue := 0, functionalStatus := .no_function, significance := "I560S — disrupts FAD binding, abolished activity" },
  { rsid := "rs67376798", gene := .DPYD, chromosome := "1", position37 := 98205966, position38 := 97740410, refAllele := "T", altAlleles := ["A"], starAllele := "D949V", activityValue := 0.5, functionalStatus := .decreased_function, significance := "D949V — ~50% residual DPD activity in heterozygotes" },
  { rsid := "rs75017182", gene := .DPYD, chromosome := "1", position37 := 97573863, position38 := 97108307, refAllele := "G", altAlleles := ["A"], starAllele := "HapB3", activityValue := 0.5, functionalStatus := .decreased_function, significance := "c.1129-5923C>G — deep intronic partial exon skipping" }
]

/-! ### Lookup indices

The source builds three `Map`s at module load: `rsidIndex` keyed by
lower-cased rsID, and `pos37Index` / `pos38Index` keyed by
`chrom:pos` for both chromosome spellings (`22` and `chr22`).
`Map.set` means a later database row overwrites an earlier one under the
same key, so a map read returns the *last* matching row: we model each
index read as a `find?` over the reversed database. -/

def rsidIndexGet (key : String) : Option VariantDefinition :=
  VARIANT_DATABASE.reverse.find? (fun v => jsToLower v.rsid == key)

def pos37IndexGet (key : String) : Option VariantDefinition :=
  VARIANT_DATABASE.reverse.find? (fun v =>
    key == v.chromosome ++ ":" ++ toString v.position37 ||
    key == "chr" ++ v.chromosome ++ ":" ++ toString v.position37)

def pos38IndexGet (key : String) : Option VariantDefinition :=
  VARIANT_DATABASE.reverse.find? (fun v =>
    key == v.chromosome ++ ":" ++ toString v.position38 ||
    key == "chr" ++ v.chromosome ++ ":" ++ toString v.position38)

/-- `lookupByRsid` from cpic-data.ts. -/
def lookupByRsid (rsid : String) : Option VariantDefinition :=
  rsidIndexGet (jsToLower rsid)

/-- First `some` in a list of lazily-evaluated candidates. -/
def firstSome {α : Type} : List (Option α) → Option α
  | [] => Option.none
  | some a :: _ => some a
  | Option.none :: rest => firstSome rest

/-- `lookupByPosition` from cpic-data.ts: exact GRCh37 keys, then exact
GRCh38 keys, then a ±5 bp fuzzy probe (offset 0 excluded), each probe trying
both chromosome spellings and GRCh37 before GRCh38. -/
def lookupByPosition (chrom : String) (pos : Int) : Option VariantDefinition :=
  let cleanChrom := stripChr chrom
  let keys := [cleanChrom ++ ":" ++ toString pos, "chr" ++ cleanChrom ++ ":" ++ toString pos]
  firstSome
    (keys.map pos37IndexGet ++ keys.map pos38IndexGet ++
      (([-5, -4, -3, -2, -1, 1, 2, 3, 4, 5] : List Int).flatMap (fun offset =>
        let fuzzyPos := pos + offset
        [cleanChrom, "chr" ++ cleanChrom].flatMap (fun chr =>
          [pos37IndexGet (chr ++ ":" ++ toString fuzzyPos),
           pos38IndexGet (chr ++ ":" ++ toString fuzzyPos)]))))

/-! ## Gene–drug maps (src/lib/cpic-data.ts) -/

/-- `DRUG_GENE_MAP` from cpic-data.ts. -/
def DRUG_GENE_MAP : DrugName → GeneSymbol
  | .CODEINE => .CYP2D6
  | .CLOPIDOGREL => .CYP2C19
  | .WARFARIN => .CYP2C9
  | .SIMVASTATIN => .SLCO1B1
  | .AZATHIOPRINE => .TPMT
  | .FLUOROURACIL => .DPYD

/-! ## Activity score → phenotype (src/lib/cpic-data.ts) -/

/-- `calculateActivityScore` from cpic-data.ts. -/
def calculateActivityScore (allele1Activity allele2Activity : ℚ) : ℚ :=
  allele1Activity + allele2Activity

/-- `activityScoreToPhenotype` from cpic-data.ts: gene-specific threshold
chains, translated branch by branch (each source `if` returns, so the chain
is an `if … else if …` cascade). -/
def activityScoreToPhenotype (gene : GeneSymbol) (activityScore : ℚ) : Phenotype :=
  match gene with
  | .CYP2D6 =>
    if activityScore = 0 then .PM
    else if 0.25 ≤ activityScore ∧ activityScore ≤ 1.0 then .IM
    else if 1.25 ≤ activityScore ∧ activityScore ≤ 2.25 then .NM
    else if 2.25 < activityScore then .URM
    else .IM
  | .CYP2C19 =>
    if activityScore = 0 then .PM
    else if 0.5 ≤ activityScore ∧ activityScore ≤ 1.0 then .IM
    else if 1.5 ≤ activityScore ∧ activityScore ≤ 2.0 then .NM
    else if 2.0 < activityScore then .RM
    else .IM
  | .CYP2C9 =>
    if activityScore ≤ 0.5 then .PM
    else if 1.0 ≤ activityScore ∧ activityScore ≤ 1.5 then .IM
    else if activityScore = 2.0 then .NM
    else if activityScore < 1.0 then .PM
    else .NM
  | .DPYD =>
    if activityScore ≤ 0.5 then .PM
    else if 1.0 ≤ activityScore ∧ activityScore ≤ 1.5 then .IM
    else if activityScore = 2.0 then .NM
    else if activityScore < 1.0 then .PM
    else .NM
  | .TPMT =>
    if activityScore = 0 then .PM
    else if activityScore ≤ 1.0 then .IM
    else if 1.5 ≤ activityScore then .NM
    else .IM
  | .SLCO1B1 =>
    if activityScore = 0 then .PM
    else if activityScore ≤ 1.0 then .IM
    else if 1.5 ≤ activityScore then .NM
    else .IM

/-! ## Risk assessment (src/lib/cpic-data.ts)

`RiskEntry`'s free-text fields (`cpicClinicalAction`, `reason`,
`dosingGuidance`, `alternatives`, `cpicReference`, `monitoringRecs`) are
pure prose generation that no spec property observes; the model keeps the
`risk` and `severity` fields. -/

structure PhenotypeRisk where
  risk : RiskLabel
  severity : Severity
  deriving DecidableEq, Inhabited

structure RiskEntry where
  risk : RiskLabel
  severity : Severity
  deriving DecidableEq, Inhabited

/-- `CPIC_RISK_PROFILES` from cpic-data.ts: per-drug record keyed by the
phenotype string; a phenotype absent from a drug's record (in particular
`Unknown`) reads as `undefined`, modelled as `none`. -/
def CPIC_RISK_PROFILES (drug : DrugName) (phenotype : Phenotype) : Option PhenotypeRisk :=
  match drug, phenotype with
  | .CODEINE, .PM => some ⟨.Toxic, .critical⟩
  | .CODEINE, .IM => some ⟨.AdjustDosage, .moderate⟩
  | .CODEINE, .NM => some ⟨.Safe, .none⟩
  | .CODEINE, .RM => some ⟨.Toxic, .high⟩
  | .CODEINE, .URM => some ⟨.Toxic, .critical⟩
  | .CLOPIDOGREL, .PM => some ⟨.Ineffective, .critical⟩
  | .CLOPIDOGREL, .IM => some ⟨.Ineffective, .high⟩
  | .CLOPIDOGREL, .NM => some ⟨.Safe, .none⟩
  | .CLOPIDOGREL, .RM => some ⟨.Safe, .none⟩
  | .CLOPIDOGREL, .URM => some ⟨.Safe, .none⟩
  | .WARFARIN, .PM => some ⟨.AdjustDosage, .high⟩
  | .WARFARIN, .IM => some ⟨.AdjustDosage, .moderate⟩
  | .WARFARIN, .NM => some ⟨.Safe, .none⟩
  | .WARFARIN, .RM => some ⟨.Safe, .none⟩
  | .WARFARIN, .URM => some ⟨.Safe, .none⟩
  | .SIMVASTATIN, .PM => some ⟨.AdjustDosage, .high⟩
  | .SIMVASTATIN, .IM => some ⟨.AdjustDosage, .moderate⟩
  | .SIMVASTATIN, .NM => some ⟨.Safe, .none⟩
  | .SIMVASTATIN, .RM => some ⟨.Safe, .none⟩
  | .SIMVASTATIN, .URM => some ⟨.Safe, .none⟩
  | .AZATHIOPRINE, .PM => some ⟨.Toxic, .critical⟩
  | .AZATHIOPRINE, .IM => some ⟨.AdjustDosage, .high⟩
  | .AZATHIOPRINE, .NM => some ⟨.Safe, .none⟩
  | .AZATHIOPRINE, .RM => some ⟨.Safe, .none⟩
  | .AZATHIOPRINE, .URM => some ⟨.Safe, .none⟩
  | .FLUOROURACIL, .PM => some ⟨.Toxic, .critical⟩
  | .FLUOROURACIL, .IM => some ⟨.AdjustDosage, .high⟩
  | .FLUOROURACIL, .NM => some ⟨.Safe, .none⟩
  | .FLUOROURACIL, .RM => some ⟨.Safe, .none⟩
  | .FLUOROURACIL, .URM => some ⟨.Safe, .none⟩
  | _, .Unknown => Option.none

/-- `computeDrugRisk` from cpic-data.ts (risk label and severity; `gene` and
`activityScore` participate only in the unmodelled prose fields). -/
def computeDrugRisk (gene : GeneSymbol) (drug : DrugName) (phenotype : Phenotype)
    (activityScore : ℚ) (variantFunctions : List FunctionalStatus) : RiskEntry :=
  let phenoRisk := CPIC_RISK_PROFILES drug phenotype
  let risk : RiskLabel :=
    match phenoRisk with
    | some pr => pr.risk
    | Option.none => .Unknown
  let severity : Severity :=
    match phenoRisk with
    | some pr => pr.severity
    | Option.none => .moderate
  let noFunctionCount := (variantFunctions.filter (fun f => f == .no_function)).length
  let severity := if 2 ≤ noFunctionCount ∧ severity ≠ .critical then .high else severity
  { risk := risk, severity := severity }

/-- JS `Math.round(x * 100) / 100` (round half toward +infinity; every value
this pipeline rounds is non-negative). -/
def round2 (x : ℚ) : ℚ := (Int.floor (x * 100 + 1 / 2) : ℚ) / 100

/-- `computeConfidenceScore` from cpic-data.ts, as the source's sequential
accumulation. -/
def computeConfidenceScore (phenotype : Phenotype) (variantCount : Nat)
    (noFunctionVariants : Nat) (activityScore : ℚ) : ℚ :=
  let confidence : ℚ := 0.40
  let confidence := confidence + min ((variantCount : ℚ) * 0.07) 0.15
  let confidence :=
    if phenotype = .PM ∧ 2 ≤ noFunctionVariants then confidence + 0.15
    else if phenotype = .PM ∨ phenotype = .URM then confidence + 0.12
    else if phenotype = .NM then confidence + 0.10
    else if phenotype = .IM then confidence + 0.08
    else confidence
  let confidence :=
    if activityScore = 0 ∨ 2.5 ≤ activityScore then confidence + 0.10
    else if activityScore ≤ 0.5 ∨ 2.0 ≤ activityScore then confidence + 0.06
    else confidence + 0.03
  let confidence :=
    if 2 ≤ variantCount ∧ noFunctionVariants = variantCount then confidence + 0.08
    else confidence
  min (round2 confidence) 0.98

/-! ## Record parser (src/lib/vcf-parser.ts) -/

/-- Quality thresholds from vcf-parser.ts. -/
def MIN_QUAL_SCORE : ℚ := 20
def MIN_READ_DEPTH : Int := 10
def MIN_GENO_QUALITY : Int := 15

inductive WarnSeverity where
  | info | warning | error
  deriving DecidableEq, Inhabited

/-- `ParseWarning` from vcf-parser.ts.  The free-text `message` is prose no
spec property observes and is not modelled. -/
structure ParseWarning where
  line : Nat
  field : String
  severity : WarnSeverity
  deriving DecidableEq, Inhabited

/-- `VCFRecord` from types.ts (the `samples` field is never written or read
by the pipeline and is omitted). -/
structure VCFRecord where
  chrom : String
  pos : Int
  id : String
  ref : String
  alt : String
  qual : String
  filter : String
  info : List (String × String)
  format : Option String
  genotype : Option String
  deriving DecidableEq, Inhabited

/-- The INFO-field parse of `parseVCF`: semicolon-separated `KEY=VALUE`
pairs (first `=` splits, and only when it is not the first character) or
bare flags valued `"true"`, keys upper-cased, later pairs overwriting
earlier ones on read (`infoGet`). -/
def parseInfoStr (infoStr : String) : List (String × String) :=
  if infoStr ≠ "" ∧ infoStr ≠ "." then
    (jsSplitChar infoStr ';').map (fun pair =>
      match pair.data.findIdx? (· = '=') with
      | some i =>
        if 0 < i then (jsToUpper ⟨pair.data.take i⟩, ⟨pair.data.drop (i + 1)⟩)
        else (jsToUpper pair, "true")
      | Option.none => (jsToUpper pair, "true"))
  else []

/-- The FORMAT/SAMPLE block of `parseVCF`: yields the genotype string, the
warnings the block pushes, and whether the record is skipped for low read
depth (`DP`).  Mirrors the source's order: field-count-mismatch warning,
`GT` extraction (default `1/1` with a warning), `DP` skip (which stops
before the `GQ` check), `GQ` warning. -/
def gtBlock (n : Nat) (formatStr? sampleStr? : Option String) :
    String × List ParseWarning × Bool :=
  let fOk : Bool := match formatStr? with | some f => f ≠ "" | Option.none => false
  let sOk : Bool := match sampleStr? with | some s => s ≠ "" | Option.none => false
  if fOk && sOk then
    let formatFields := jsSplitChar (formatStr?.getD "") ':'
    let sampleFields := jsSplitChar (sampleStr?.getD "") ':'
    let wMismatch : List ParseWarning :=
      if formatFields.length ≠ sampleFields.length then [⟨n, "FORMAT", .warning⟩] else []
    let gtAndW : String × List ParseWarning :=
      match formatFields.findIdx? (· == "GT") with
      | some i =>
        if i < sampleFields.length then (sampleFields.getD i "", [])
        else ("1/1", [⟨n, "FORMAT/GT", .warning⟩])
      | Option.none => ("1/1", [⟨n, "FORMAT/GT", .warning⟩])
    let dpSkip : Bool :=
      match formatFields.findIdx? (· == "DP") with
      | some i =>
        decide (i < sampleFields.length) &&
          (match jsParseInt (sampleFields.getD i "") with
           | some dp => decide (dp < MIN_READ_DEPTH)
           | Option.none => false)
      | Option.none => false
    if dpSkip then (gtAndW.1, wMismatch ++ gtAndW.2 ++ [⟨n, "DP", .warning⟩], true)
    else
      let wGq : List ParseWarning :=
        match formatFields.findIdx? (· == "GQ") with
        | some i =>
          if i < sampleFields.length then
            match jsParseInt (sampleFields.getD i "") with
            | some gq => if gq < MIN_GENO_QUALITY then [⟨n, "GQ", .warning⟩] else []
            | Option.none => []
          else []
        | Option.none => []
      (gtAndW.1, wMismatch ++ gtAndW.2 ++ wGq, false)
  else ("1/1", [⟨n, "FORMAT", .info⟩], false)

/-- The per-line body of `parseVCF` after the position has parsed:
quality-score filter, FILTER-status filter, missing-ID/QUAL info warnings,
INFO parse, FORMAT/SAMPLE block, record construction. -/
def parseRecordFields (n : Nat) (fields : List String) (posNum : Int) :
    Option VCFRecord × List ParseWarning :=
  let chrom := fields.getD 0 ""
  let id := fields.getD 2 ""
  let ref := fields.getD 3 ""
  let alt := fields.getD 4 ""
  let qual? := fields.get? 5
  let filter? := fields.get? 6
  let rest := fields.drop 7
  let qualNum := qual?.bind jsParseFloat
  if (match qualNum with | some q => decide (q < MIN_QUAL_SCORE) | Option.none => false) then
    (Option.none, [⟨n, "QUAL", .warning⟩])
  else if (match filter? with
           | some f => f ≠ "" && f ≠ "." && f ≠ "PASS"
           | Option.none => false) then
    (Option.none, [⟨n, "FILTER", .warning⟩])
  else
    let wId : List ParseWarning := if id = "" || id = "." then [⟨n, "ID", .info⟩] else []
    let wQual : List ParseWarning :=
      if (match qual? with | some q => q = "" || q = "." | Option.none => true) then
        [⟨n, "QUAL", .info⟩]
      else []
    let info := parseInfoStr (jsOrD (rest.get? 0) "")
    let gt := gtBlock n (rest.get? 1) (rest.get? 2)
    if gt.2.2 then (Option.none, wId ++ wQual ++ gt.2.1)
    else
      (some
        { chrom := stripChr chrom
          pos := posNum
          id := jsOrD (some id) "."
          ref := ref
          alt := alt
          qual := jsOrD qual? "."
          filter := jsOrD filter? "."
          info := info
          format := rest.get? 1
          genotype := some gt.1 },
       wId ++ wQual ++ gt.2.1)

/-- The per-line body of `parseVCF` after the minimum-column check: the
position must `parseInt`, else the line is skipped with an error warning. -/
def parseFields (n : Nat) (fields : List String) : Option VCFRecord × List ParseWarning :=
  match jsParseInt (fields.getD 1 "") with
  | Option.none => (Option.none, [⟨n, "POS", .error⟩])
  | some posNum => parseRecordFields n fields posNum

/-- One iteration of `parseVCF`'s line loop: skip headers/blank lines, split
on tab falling back to whitespace, require five columns. -/
def processLine (n : Nat) (line : String) : Option VCFRecord × List ParseWarning :=
  if startsWithHash line || jsTrim line = "" then (Option.none, [])
  else
    let fields0 := jsSplitChar line '\t'
    let fields := if fields0.length < 5 then jsSplitWS line else fields0
    if fields.length < 5 then (Option.none, [⟨n, "ALL", .error⟩])
    else parseFields n fields

structure ParseVCFResult where
  records : List VCFRecord
  warnings : List ParseWarning
  deriving DecidableEq, Inhabited

def parseVCFAux : Nat → List String → ParseVCFResult
  | _, [] => ⟨[], []⟩
  | n, line :: rest =>
    let step := processLine n line
    let r := parseVCFAux (n + 1) rest
    ⟨(match step.1 with | some rcd => rcd :: r.records | Option.none => r.records),
     step.2 ++ r.warnings⟩

/-- `parseVCF` from vcf-parser.ts. -/
def parseVCF (vcfContent : String) : ParseVCFResult :=
  parseVCFAux 1 (jsSplitChar vcfContent '\n')

/-- `validateVCF` from vcf-parser.ts, modelled as `none` = valid and
`some e` = invalid with error string `e` (the source's
`{valid, error?}` pair always carries an error exactly when invalid). -/
def validateVCF (vcfContent : String) : Option String :=
  if vcfContent = "" ∨ jsTrim vcfContent = "" then
    some "VCF file is empty"
  else
    let dataLines := (jsSplitChar vcfContent '\n').filter
      (fun l => !startsWithHash l && jsTrim l ≠ "")
    if dataLines.isEmpty then
      some "No actionable pharmacogenomic variants found. The VCF file contains only headers and no variant records."
    else
      let hasValidLine := dataLines.any (fun line =>
        5 ≤ (jsSplitChar line '\t').length || 5 ≤ (jsSplitWS line).length)
      if !hasValidLine then
        some "No valid variant records found (expected at least 5 columns: CHROM, POS, ID, REF, ALT)"
      else Option.none

/-! ## Variant matcher (src/lib/vcf-parser.ts, `extractPharmaVariants`) -/

/-- `DetectedVariant` from types.ts (the optional `allele_frequency` is
never written and is omitted). -/
structure DetectedVariant where
  rsid : String
  chromosome : String
  position : Int
  ref_allele : String
  alt_allele : String
  genotype : String
  gene : GeneSymbol
  clinical_significance : String
  deriving DecidableEq, Inhabited

/-- `doesCarryVariant` from vcf-parser.ts. -/
def doesCarryVariant (record : VCFRecord) : Bool :=
  let gt := jsOrD record.genotype ""
  !(gt == "0/0" || gt == "0|0")

/-- `isHomozygousVariant` from vcf-parser.ts. -/
def isHomozygousVariant (genotype : String) : Bool :=
  genotype == "1/1" || genotype == "1|1"

/-- Matching strategies 1 and 2 of `extractPharmaVariants`: each `;`-token
of the ID field against the rsID index, then the coordinate lookup; the
second component is the source's `matchMethod` string. -/
def matchRecord (record : VCFRecord) : Option (VariantDefinition × String) :=
  let rsids := ((jsSplitChar record.id ';').map jsTrim).filter (fun s => s ≠ "." && s ≠ "")
  match firstSome (rsids.map lookupByRsid) with
  | some m => some (m, "rsID")
  | Option.none =>
    match lookupByPosition record.chrom record.pos with
    | some m => some (m, "chr:pos")
    | Option.none => Option.none

/-- The gene-tag fallback's gene name:
`record.info.GENE || record.info.GENEINFO?.split(':')[0] || ''`. -/
def fallbackGeneName (record : VCFRecord) : String :=
  let g := jsOrD (infoGet record.info "GENE") ""
  if g ≠ "" then g
  else
    match infoGet record.info "GENEINFO" with
    | some s => (jsSplitChar s ':').getD 0 ""
    | Option.none => ""

/-- Clinical-significance string of a fallback-synthesized variant. -/
def fallbackSignificance (record : VCFRecord) (geneName : String) : String :=
  let star := jsOrD (infoGet record.info "STAR") ""
  if star ≠ "" then
    "Star allele " ++ star ++ " in " ++ geneName ++ " (" ++
      jsOrD (infoGet record.info "EFFECT") "unknown effect" ++ ")"
  else "Variant in pharmacogene " ++ geneName

/-- JS `Set.add` on a membership-list model. -/
def addSet (x : String) (l : List String) : List String :=
  if l.contains x then l else l ++ [x]

def addCov (g : GeneSymbol) (l : List GeneSymbol) : List GeneSymbol :=
  if l.contains g then l else l ++ [g]

/-- The accumulated state of `extractPharmaVariants`'s record loop
(`variants`, `coveredGenes`, `seenStarAlleles`, `seenPositions`, plus the
warnings the loop pushes into the caller's warning array). -/
structure ExtractState where
  variants : List DetectedVariant
  coveredGenes : List GeneSymbol
  seenStarAlleles : List String
  seenPositions : List String
  warnings : List ParseWarning
  deriving DecidableEq, Inhabited

/-- One iteration of `extractPharmaVariants`'s loop, translated in the
source's order: rsID/coordinate match; on failure the gene-tag fallback
(coverage, zygosity guard, position dedup, synthesized variant); on success
coverage, a missing-GENE warning, star-allele dedup, position dedup,
zygosity guard, emitted variant. -/
def extractStep (st : ExtractState) (record : VCFRecord) : ExtractState :=
  match matchRecord record with
  | Option.none =>
    let geneName := fallbackGeneName record
    match geneFromString geneName with
    | some g =>
      let st := { st with coveredGenes := addCov g st.coveredGenes }
      if !doesCarryVariant record then st
      else
        let posKey := geneName ++ ":" ++ record.chrom ++ ":" ++ toString record.pos
        if st.seenPositions.contains posKey then st
        else
          { st with
            seenPositions := addSet posKey st.seenPositions
            variants := st.variants ++
              [{ rsid := if record.id ≠ "." then record.id
                         else record.chrom ++ ":" ++ toString record.pos
                 chromosome := record.chrom
                 position := record.pos
                 ref_allele := record.ref
                 alt_allele := record.alt
                 genotype := jsOrD record.genotype "0/1"
                 gene := g
                 clinical_significance := fallbackSignificance record geneName }] }
    | Option.none => st
  | some (matched, matchMethod) =>
    let st := { st with coveredGenes := addCov matched.gene st.coveredGenes }
    let st :=
      if fallbackGeneName record = "" then
        { st with warnings := st.warnings ++ [⟨0, "INFO/GENE", .warning⟩] }
      else st
    let starKey := matched.gene.toStr ++ ":" ++ matched.starAllele
    if st.seenStarAlleles.contains starKey then st
    else
      let posKey := matched.gene.toStr ++ ":" ++ record.chrom ++ ":" ++ toString record.pos
      if st.seenPositions.contains posKey then st
      else if !doesCarryVariant record then st
      else
        { st with
          seenStarAlleles := addSet starKey st.seenStarAlleles
          seenPositions := addSet posKey st.seenPositions
          variants := st.variants ++
            [{ rsid := matched.rsid
               chromosome := record.chrom
               position := record.pos
               ref_allele := record.ref
               alt_allele := record.alt
               genotype := jsOrD record.genotype "0/1"
               gene := matched.gene
               clinical_significance :=
                 matched.starAllele ++ ": " ++ matched.significance ++ " [" ++ matchMethod ++ "]" }] }

def extractGo (st : ExtractState) : List VCFRecord → ExtractState
  | [] => st
  | r :: rs => extractGo (extractStep st r) rs

/-- `extractPharmaVariants` from vcf-parser.ts. -/
def extractPharmaVariants (records : List VCFRecord) : ExtractState :=
  extractGo ⟨[], [], [], [], []⟩ records

/-! ## Diplotype resolver (src/lib/vcf-parser.ts, `buildGeneProfiles`) -/

/-- One entry of `buildGeneProfiles`'s `alleleActivities` array. -/
structure AlleleActivity where
  star : String
  activity : ℚ
  genotype : String
  deriving DecidableEq

instance : Inhabited AlleleActivity := ⟨⟨"", 1, ""⟩⟩

/-- The gene's allele-activity list: database entry per variant
(rsID lookup, else coordinate lookup), one entry per star allele. -/
def collectAlleleActivities : List DetectedVariant → List String → List AlleleActivity
  | [], _ => []
  | v :: vs, seenStars =>
    let dbEntry :=
      match lookupByRsid v.rsid with
      | some d => some d
      | Option.none => lookupByPosition v.chromosome v.position
    match dbEntry with
    | Option.none => collectAlleleActivities vs seenStars
    | some db =>
      if seenStars.contains db.starAllele then collectAlleleActivities vs seenStars
      else ⟨db.starAllele, db.activityValue, v.genotype⟩ ::
        collectAlleleActivities vs (seenStars ++ [db.starAllele])

/-- Comparison relation of the source's
`sort((a, b) => a.activity - b.activity)`. -/
def actLE (a b : AlleleActivity) : Prop := a.activity ≤ b.activity

instance : DecidableRel actLE := fun a b => inferInstanceAs (Decidable (a.activity ≤ b.activity))

instance : IsTotal AlleleActivity actLE := ⟨fun a b => le_total a.activity b.activity⟩

instance : IsTrans AlleleActivity actLE := ⟨fun _ _ _ h h' => le_trans h h'⟩

/-- Ascending stable sort by activity, as JS `Array.prototype.sort` with the
comparator `(a, b) => a.activity - b.activity` (stable per ES2019). -/
def sortByActivity (l : List AlleleActivity) : List AlleleActivity :=
  List.insertionSort actLE l

/-- The two allele activity slots of `buildGeneProfiles`: wild-type `(1, 1)`
for no matched allele; a single allele fills both slots if homozygous, else
pairs with a wild-type `1.0`; with several alleles a homozygous one (first
in ascending-activity order) fills both slots, otherwise the two
lowest-activity alleles fill them. -/
def resolveAlleles : List AlleleActivity → ℚ × ℚ
  | [] => (1.0, 1.0)
  | [entry] =>
    if isHomozygousVariant entry.genotype then (entry.activity, entry.activity)
    else (1.0, entry.activity)
  | a :: b :: rest =>
    let sorted := sortByActivity (a :: b :: rest)
    match sorted.find? (fun v => isHomozygousVariant v.genotype) with
    | some homoVariant => (homoVariant.activity, homoVariant.activity)
    | Option.none =>
      ((sorted.headD default).activity,
       if 2 ≤ sorted.length then (sorted.getD 1 default).activity else 1.0)

/-- The diplotype string of `buildGeneProfiles`: built from the star-allele
labels in the order the alleles were collected (`alleleActivities`, not the
activity-sorted list). -/
def buildDiplotype : List AlleleActivity → String
  | [] => "*1/*1"
  | [entry] =>
    if isHomozygousVariant entry.genotype then entry.star ++ "/" ++ entry.star
    else "*1/" ++ entry.star
  | a :: b :: _ => a.star ++ "/" ++ b.star

/-- `GeneProfile` from types.ts. -/
structure GeneProfile where
  gene : GeneSymbol
  diplotype : String
  phenotype : Phenotype
  variants : List DetectedVariant
  activityScore : ℚ
  deriving DecidableEq, Inhabited

/-- First-occurrence deduplication: the key iteration order of a JS `Map`
filled by insertion. -/
def dedupFirstAux : List GeneSymbol → List GeneSymbol → List GeneSymbol
  | [], _ => []
  | g :: gs, seen =>
    if seen.contains g then dedupFirstAux gs seen
    else g :: dedupFirstAux gs (g :: seen)

/-- `buildGeneProfiles` from vcf-parser.ts. -/
def buildGeneProfiles (variants : List DetectedVariant) : List GeneProfile :=
  let genes := dedupFirstAux (variants.map (·.gene)) []
  genes.map (fun gene =>
    let geneVariants := variants.filter (fun v => v.gene == gene)
    let alleleActivities := collectAlleleActivities geneVariants []
    let slots := resolveAlleles alleleActivities
    let totalActivityScore := calculateActivityScore slots.1 slots.2
    { gene := gene
      diplotype := buildDiplotype alleleActivities
      phenotype := activityScoreToPhenotype gene totalActivityScore
      variants := geneVariants
      activityScore := round2 totalActivityScore })

/-! ## Pipeline assembly (src/lib/vcf-parser.ts `analyzeVCF`,
src/lib/risk-engine.ts) -/

structure AnalyzeVCFResult where
  records : List VCFRecord
  variants : List DetectedVariant
  profiles : List GeneProfile
  coveredGenes : List GeneSymbol
  warnings : List ParseWarning
  error : Option String
  deriving DecidableEq, Inhabited

/-- `analyzeVCF` from vcf-parser.ts. -/
def analyzeVCF (vcfContent : String) : AnalyzeVCFResult :=
  match validateVCF vcfContent with
  | some e => ⟨[], [], [], [], [], some e⟩
  | Option.none =>
    let pr := parseVCF vcfContent
    if pr.records.isEmpty then
      ⟨[], [], [], [], pr.warnings ++ [⟨0, "ALL", .warning⟩], Option.none⟩
    else
      let ex := extractPharmaVariants pr.records
      let profiles := buildGeneProfiles ex.variants
      let covered := profiles.foldl (fun c p => addCov p.gene c) ex.coveredGenes
      ⟨pr.records, ex.variants, profiles, covered, pr.warnings ++ ex.warnings, Option.none⟩

/-- `AnalysisResult` from types.ts, restricted to the fields the spec's
properties observe: the risk-assessment block (label, severity, confidence)
and the pharmacogenomic-profile block (gene, diplotype, phenotype, detected
variants), plus the drug.  Patient id, timestamp, prose recommendation
blocks and timing metrics are not modelled. -/
structure AnalysisResult where
  drug : DrugName
  risk_label : RiskLabel
  severity : Severity
  confidence_score : ℚ
  primary_gene : GeneSymbol
  diplotype : String
  phenotype : Phenotype
  detected_variants : List DetectedVariant
  deriving DecidableEq, Inhabited

/-- `createWildTypeResult` from risk-engine.ts: covered gene → wild-type
inference (`Safe`/NM, confidence `min(0.65 + 0.02·totalVariants, 0.80)`);
uncovered gene → `Unknown`/low with zero confidence. -/
def createWildTypeResult (drug : DrugName) (gene : GeneSymbol) (geneCovered : Bool)
    (totalVariants : Nat) : AnalysisResult :=
  if geneCovered then
    { drug := drug
      risk_label := .Safe
      severity := .none
      confidence_score := min (0.65 + (totalVariants : ℚ) * 0.02) 0.80
      primary_gene := gene
      diplotype := "*1/*1 (wild-type)"
      phenotype := .NM
      detected_variants := [] }
  else
    { drug := drug
      risk_label := .Unknown
      severity := .low
      confidence_score := 0.0
      primary_gene := gene
      diplotype := "Indeterminate (gene not sequenced in this panel)"
      phenotype := .Unknown
      detected_variants := [] }

/-- `assessDrugRisk` from risk-engine.ts (the `patientId` parameter feeds
only the unmodelled `patient_id` output field and is dropped). -/
def assessDrugRisk (drug : DrugName) (profiles : List GeneProfile)
    (totalVariantsInVcf : Nat) (coveredGenes : List GeneSymbol) : AnalysisResult :=
  let gene := DRUG_GENE_MAP drug
  match profiles.find? (fun p => p.gene == gene) with
  | Option.none => createWildTypeResult drug gene (coveredGenes.contains gene) totalVariantsInVcf
  | some geneProfile =>
    let variantFunctions := geneProfile.variants.filterMap (fun v =>
      Option.map (·.functionalStatus)
        (match lookupByRsid v.rsid with
         | some d => some d
         | Option.none => lookupByPosition v.chromosome v.position))
    let noFunctionCount := (variantFunctions.filter (· == .no_function)).length
    let riskEntry := computeDrugRisk gene drug geneProfile.phenotype geneProfile.activityScore
      variantFunctions
    let confidence := computeConfidenceScore geneProfile.phenotype geneProfile.variants.length
      noFunctionCount geneProfile.activityScore
    { drug := drug
      risk_label := riskEntry.risk
      severity := riskEntry.severity
      confidence_score := confidence
      primary_gene := gene
      diplotype := geneProfile.diplotype
      phenotype := geneProfile.phenotype
      detected_variants := geneProfile.variants.filter
        (fun v => v.genotype ≠ "0/0" && v.genotype ≠ "0|0") }

structure RunFullAnalysisResult where
  results : List AnalysisResult
  warnings : List ParseWarning
  error : Option String
  deriving DecidableEq, Inhabited

/-- `runFullAnalysis` from risk-engine.ts (the patient-id hash feeds only
the unmodelled `patient_id` field). -/
def runFullAnalysis (vcfContent : String) (drugs : List String) : RunFullAnalysisResult :=
  let a := analyzeVCF vcfContent
  match a.error with
  | some e => ⟨[], a.warnings, some e⟩
  | Option.none =>
    let normalizedDrugs := drugs.map (fun d => jsToUpper (jsTrim d))
    let validDrugs := normalizedDrugs.filterMap drugFromString
    if validDrugs.isEmpty then
      ⟨[], a.warnings,
        some ("No supported drugs provided. Supported: " ++ String.intercalate ", " SUPPORTED_DRUGS)⟩
    else
      ⟨validDrugs.map (fun drug =>
          assessDrugRisk drug a.profiles a.variants.length a.coveredGenes),
        a.warnings, Option.none⟩

/-! ## Spec-side definitions and concrete test inputs

Definitions in this section are *not* translations of the source: they
either restate a quantity in the spec's own words (for comparison against
the source-derived definitions above) or construct concrete inputs for
witnesses and counterexamples. -/

/-- The spec's enumerated phenotype bands (§4.4's threshold table), gene by
gene: a score is *in band* when it lies in one of the table's PM/IM/NM/RM/URM
intervals.  Written from the spec's table, for comparison with
`activityScoreToPhenotype`. -/
def specInBandB (gene : GeneSymbol) (s : ℚ) : Bool :=
  match gene with
  | .CYP2D6 =>
    decide (s = 0) || (decide (0.25 ≤ s) && decide (s ≤ 1.0)) ||
      (decide (1.25 ≤ s) && decide (s ≤ 2.25)) || decide (2.25 < s)
  | .CYP2C19 =>
    decide (s = 0) || (decide (0.5 ≤ s) && decide (s ≤ 1.0)) ||
      (decide (1.5 ≤ s) && decide (s ≤ 2.0)) || decide (2.0 < s)
  | .CYP2C9 =>
    decide (s ≤ 0.5) || (decide (1.0 ≤ s) && decide (s ≤ 1.5)) || decide (s = 2.0)
  | .SLCO1B1 => decide (s = 0) || decide (s ≤ 1.0) || decide (1.5 ≤ s)
  | .TPMT => decide (s = 0) || decide (s ≤ 1.0) || decide (1.5 ≤ s)
  | .DPYD =>
    decide (s ≤ 0.5) || (decide (1.0 ≤ s) && decide (s ≤ 1.5)) || decide (s = 2.0)

/-- The risk label and severity read from the per-drug phenotype table
(`CPIC_RISK_PROFILES`), with the source's fallback `Unknown`/`moderate` for a
phenotype the table does not list. -/
def baseRiskSeverity (drug : DrugName) (phenotype : Phenotype) : RiskLabel × Severity :=
  match CPIC_RISK_PROFILES drug phenotype with
  | some pr => (pr.risk, pr.severity)
  | Option.none => (.Unknown, .moderate)

/-- Number of `no_function` entries in a functional-status list. -/
def countNoFunction (fns : List FunctionalStatus) : Nat :=
  (fns.filter (· == .no_function)).length

/-- "Escalate severity by exactly one tier", as the spec's claim words it
(modelled from the spec for the comparison in the C6 counterexample, not
from the source). -/
def severityOneTierUp : Severity → Severity
  | .none => .low
  | .low => .moderate
  | .moderate => .high
  | .high => .critical
  | .critical => .critical

/-- The additive decomposition of `computeConfidenceScore`, bonus by bonus:
the variant-count bonus, `min(0.07·count, 0.15)`. -/
def variantCountBonus (variantCount : Nat) : ℚ :=
  min ((variantCount : ℚ) * 0.07) 0.15

/-- Phenotype-specific confidence bonus. -/
def phenotypeBonus (phenotype : Phenotype) (noFunctionVariants : Nat) : ℚ :=
  if phenotype = .PM ∧ 2 ≤ noFunctionVariants then 0.15
  else if phenotype = .PM ∨ phenotype = .URM then 0.12
  else if phenotype = .NM then 0.10
  else if phenotype = .IM then 0.08
  else 0

/-- Activity-score extremity confidence bonus. -/
def extremityBonus (activityScore : ℚ) : ℚ :=
  if activityScore = 0 ∨ 2.5 ≤ activityScore then 0.10
  else if activityScore ≤ 0.5 ∨ 2.0 ≤ activityScore then 0.06
  else 0.03

/-- Bonus when every matched variant is no-function and there are at least
two of them. -/
def allNoFunctionBonus (variantCount noFunctionVariants : Nat) : ℚ :=
  if 2 ≤ variantCount ∧ noFunctionVariants = variantCount then 0.08 else 0

/-- A one-data-line VCF file encoding catalog variant `v` (GRCh37
coordinates, passing quality, `GENE` tag, `GT` genotype column). -/
def mkSingleVariantVCF (v : VariantDefinition) (genotype : String) : String :=
  String.intercalate "\t"
    [v.chromosome, toString v.position37, v.rsid, v.refAllele, v.altAlleles.headD "",
     "100", "PASS", "GENE=" ++ v.gene.toStr, "GT", genotype]

/-- The catalog's CYP2D6 `*4` row (first row of `VARIANT_DATABASE`). -/
def cyp2d6Star4 : VariantDefinition := VARIANT_DATABASE.getD 0 default

/-- A heterozygous detected variant at the CYP2D6 `*2` locus (rs16947). -/
def hetStar2Variant : DetectedVariant :=
  { rsid := "rs16947", chromosome := "22", position := 42524947, ref_allele := "G"
    alt_allele := "A", genotype := "0/1", gene := .CYP2D6
    clinical_significance := "*2: R296C — normal enzymatic function maintained [rsID]" }

/-- A heterozygous detected variant at the CYP2D6 `*4` locus (rs3892097). -/
def hetStar4Variant : DetectedVariant :=
  { rsid := "rs3892097", chromosome := "22", position := 42526694, ref_allele := "C"
    alt_allele := "T", genotype := "0/1", gene := .CYP2D6
    clinical_significance := "*4: Splicing defect (IVS3+1G>A) — complete loss of enzyme activity [rsID]" }

/-- A parsed record at the CYP2D6 `*4` locus called homozygous-reference. -/
def homRefRecord : VCFRecord :=
  { chrom := "22", pos := 42526694, id := "rs3892097", ref := "C", alt := "T"
    qual := "100", filter := "PASS", info := [("GENE", "CYP2D6")]
    format := some "GT", genotype := some "0/0" }

/-- A syntactically valid one-line VCF (the `*4` homozygous line), reused as
a well-formed file by several witnesses. -/
def sampleVCF : String := mkSingleVariantVCF cyp2d6Star4 "1/1"

/-! ## Theorems -/

/-- C2 (counterexample): the activity score 7/4 lies outside every
enumerated CYP2C9 band of the spec's threshold table, yet the classifier
resolves it to NM — not to the claimed IM default. -/
theorem claim_C2_counterexample :
    specInBandB .CYP2C9 (7/4) = false ∧
    activityScoreToPhenotype .CYP2C9 (7/4) = .NM ∧
    Phenotype.NM ≠ Phenotype.IM := by decide

/-- C2 (amended): for CYP2D6, CYP2C19, TPMT and SLCO1B1 every out-of-band
activity score resolves to IM; for CYP2C9 and DPYD an out-of-band score
resolves to PM when below 1.0 and to NM otherwise (so those two genes can
resolve an out-of-band score to Normal). -/
theorem claim_C2_amended :
    ∀ (gene : GeneSymbol) (s : ℚ), specInBandB gene s = false →
      activityScoreToPhenotype gene s =
        (match gene with
         | .CYP2C9 | .DPYD => if s < 1.0 then .PM else .NM
         | _ => .IM) := by
  intro gene s h
  cases gene <;>
    simp only [specInBandB, Bool.or_eq_false_iff, Bool.and_eq_false_iff,
      decide_eq_false_iff_not] at h <;>
    simp only [activityScoreToPhenotype] <;>
    split_ifs <;> first | rfl | tauto

/-- C2 (witness): the CYP2D6 score 1/8 is out of band and classifies IM. -/
theorem claim_C2_witness :
    specInBandB .CYP2D6 (1/8) = false ∧
    activityScoreToPhenotype .CYP2D6 (1/8) = .IM :=
  ⟨by decide, claim_C2_amended .CYP2D6 (1/8) (by decide)⟩

/-- C3: when the drug's gene has no profile, a covered gene yields
Safe/NM with confidence `min(0.65 + 0.02·totalVariants, 0.80)` (hence at
most 0.80), and an uncovered gene yields Unknown with low severity and
zero confidence. -/
theorem claim_C3_zero_matched_variants :
    ∀ (drug : DrugName) (profiles : List GeneProfile) (tv : Nat)
      (coveredGenes : List GeneSymbol),
      profiles.find? (fun p => p.gene == DRUG_GENE_MAP drug) = Option.none →
      ((coveredGenes.contains (DRUG_GENE_MAP drug) = true →
          (assessDrugRisk drug profiles tv coveredGenes).risk_label = .Safe ∧
          (assessDrugRisk drug profiles tv coveredGenes).phenotype = .NM ∧
          (assessDrugRisk drug profiles tv coveredGenes).confidence_score =
            min (0.65 + (tv : ℚ) * 0.02) 0.80 ∧
          (assessDrugRisk drug profiles tv coveredGenes).confidence_score ≤ 0.80) ∧
       (coveredGenes.contains (DRUG_GENE_MAP drug) = false →
          (assessDrugRisk drug profiles tv coveredGenes).risk_label = .Unknown ∧
          (assessDrugRisk drug profiles tv coveredGenes).severity = .low ∧
          (assessDrugRisk drug profiles tv coveredGenes).confidence_score = 0)) := by
  intro drug profiles tv coveredGenes h
  constructor
  · intro hc
    simp only [assessDrugRisk, h, createWildTypeResult, hc, if_true]
    exact ⟨by trivial, by trivial, by trivial, min_le_right _ _⟩
  · intro hc
    simp only [assessDrugRisk, h, createWildTypeResult, hc, Bool.false_eq_true, if_false]
    exact ⟨by trivial, by trivial, by trivial⟩

/-- C3 (witness): CODEINE with no CYP2D6 profile — covered with 3 variants
elsewhere gives Safe at confidence 0.71; uncovered gives Unknown at 0. -/
theorem claim_C3_witness :
    ([] : List GeneProfile).find? (fun p => p.gene == DRUG_GENE_MAP .CODEINE) = Option.none ∧
    (assessDrugRisk .CODEINE [] 3 [.CYP2D6]).risk_label = .Safe ∧
    (assessDrugRisk .CODEINE [] 3 [.CYP2D6]).confidence_score = 0.71 ∧
    (assessDrugRisk .CODEINE [] 3 []).risk_label = .Unknown ∧
    (assessDrugRisk .CODEINE [] 3 []).confidence_score = 0 := by
  have h1 := claim_C3_zero_matched_variants .CODEINE [] 3 [.CYP2D6] (by decide)
  have h2 := claim_C3_zero_matched_variants .CODEINE [] 3 [] (by decide)
  refine ⟨by decide, (h1.1 (by decide)).1, ?_, (h2.2 (by decide)).1, (h2.2 (by decide)).2.2⟩
  rw [(h1.1 (by decide)).2.2.1]
  decide

/-- C6 (counterexample): with phenotype RM for CLOPIDOGREL the table's base
severity is `none`; two no-function variants drive the severity to `high`,
which is a three-tier jump, not the claimed single-tier escalation (one
tier above `none` is `low`). -/
theorem claim_C6_counterexample :
    (baseRiskSeverity .CLOPIDOGREL .RM).2 = Severity.none ∧
    Severity.none ≠ Severity.critical ∧
    countNoFunction [.no_function, .no_function] = 2 ∧
    (computeDrugRisk .CYP2C19 .CLOPIDOGREL .RM 3 [.no_function, .no_function]).severity = .high ∧
    severityOneTierUp Severity.none = .low ∧
    Severity.high ≠ Severity.low := by decide

/-- C6 (amended): with two or more no-function variants the severity from
the per-drug phenotype table is *set to* `high` whenever it is not already
`critical` (so `moderate` rises one tier, `none`/`low` jump several tiers,
and `high` stays `high`); a `critical` base is unchanged.  The risk label is
always the table's. -/
theorem claim_C6_amended :
    ∀ (gene : GeneSymbol) (drug : DrugName) (phenotype : Phenotype)
      (activityScore : ℚ) (variantFunctions : List FunctionalStatus),
      (computeDrugRisk gene drug phenotype activityScore variantFunctions).risk =
        (baseRiskSeverity drug phenotype).1 ∧
      (computeDrugRisk gene drug phenotype activityScore variantFunctions).severity =
        (if 2 ≤ countNoFunction variantFunctions ∧
            (baseRiskSeverity drug phenotype).2 ≠ .critical
         then .high else (baseRiskSeverity drug phenotype).2) := by
  intro gene drug phenotype activityScore variantFunctions
  unfold computeDrugRisk baseRiskSeverity countNoFunction
  cases h : CPIC_RISK_PROFILES drug phenotype <;> simp [h]

/-- C7 (counterexample): with one matched variant, no no-function variant
and activity score 1.0, the RM phenotype receives *no* phenotype bonus and
ends at confidence 0.50, strictly below the intermediate phenotype's 0.58 —
so the phenotype bonus is not lowest for intermediate cases. -/
theorem claim_C7_counterexample :
    computeConfidenceScore .RM 1 0 1.0 = 0.50 ∧
    computeConfidenceScore .IM 1 0 1.0 = 0.58 ∧
    computeConfidenceScore .RM 1 0 1.0 < computeConfidenceScore .IM 1 0 1.0 := by decide

/-- C7 (amended): the confidence score is the additive calibration
`min(round2(0.40 + variantCountBonus + phenotypeBonus + extremityBonus +
allNoFunctionBonus), 0.98)`; the variant-count bonus is capped at 0.15; the
phenotype bonus is maximal (0.15) for PM with at least two no-function
variants and, among the phenotypes that receive an explicit bonus
(PM, URM, NM, IM), lowest (0.08) for IM — while RM (and Unknown) receive no
phenotype bonus at all; the result never exceeds 0.98. -/
theorem claim_C7_amended :
    ∀ (phenotype : Phenotype) (vc nf : Nat) (score : ℚ),
      computeConfidenceScore phenotype vc nf score =
        min (round2 (0.40 + variantCountBonus vc + phenotypeBonus phenotype nf +
          extremityBonus score + allNoFunctionBonus vc nf)) 0.98 ∧
      variantCountBonus vc ≤ 0.15 ∧
      phenotypeBonus phenotype nf ≤ phenotypeBonus .PM 2 ∧
      phenotypeBonus .IM nf ≤ phenotypeBonus .PM nf ∧
      phenotypeBonus .IM nf ≤ phenotypeBonus .NM nf ∧
      phenotypeBonus .IM nf ≤ phenotypeBonus .URM nf ∧
      phenotypeBonus .RM nf = 0 ∧
      computeConfidenceScore phenotype vc nf score ≤ 0.98 := by
  intro phenotype vc nf score
  have hIM : phenotypeBonus .IM nf = 0.08 := by
    unfold phenotypeBonus; split_ifs <;> simp_all
  have hNM : phenotypeBonus .NM nf = 0.10 := by
    unfold phenotypeBonus; split_ifs <;> simp_all
  have hURM : phenotypeBonus .URM nf = 0.12 := by
    unfold phenotypeBonus; split_ifs <;> simp_all
  have hRM : phenotypeBonus .RM nf = 0 := by
    unfold phenotypeBonus; split_ifs <;> simp_all
  have hUnk : phenotypeBonus .Unknown nf = 0 := by
    unfold phenotypeBonus; split_ifs <;> simp_all
  have hPM : ∀ m, phenotypeBonus .PM m = if 2 ≤ m then 0.15 else 0.12 := by
    intro m
    by_cases h2 : 2 ≤ m <;> simp [phenotypeBonus, h2]
  have hPM2 : phenotypeBonus .PM 2 = 0.15 := by rw [hPM]; norm_num
  refine ⟨?_, min_le_right _ _, ?_, ?_, ?_, ?_, hRM, min_le_right _ _⟩
  · unfold computeConfidenceScore variantCountBonus phenotypeBonus extremityBonus
      allNoFunctionBonus
    split_ifs <;> exact congrArg (fun z => min (round2 z) 0.98) (by ring)
  · rw [hPM2]
    cases phenotype
    · rw [hPM]; split_ifs <;> norm_num
    · rw [hIM]; norm_num
    · rw [hNM]; norm_num
    · rw [hRM]; norm_num
    · rw [hURM]; norm_num
    · rw [hUnk]; norm_num
  · rw [hIM, hPM]; split_ifs <;> norm_num
  · rw [hIM, hNM]; norm_num
  · rw [hIM, hURM]; norm_num

/-- C5 (counterexample): two distinct heterozygous CYP2D6 alleles matched in
the order `*2` (activity 1.0) then `*4` (activity 0): the activity slots do
take the sorted ascending order (`*4` first), yet the diplotype string is
built from the *insertion* order, `"*2/*4"`, not the claimed sorted-order
`"*4/*2"`. -/
theorem claim_C5_counterexample :
    (buildGeneProfiles [hetStar2Variant, hetStar4Variant]).map
        (fun p => (p.diplotype, p.activityScore)) = [("*2/*4", 1)] ∧
    (sortByActivity (collectAlleleActivities [hetStar2Variant, hetStar4Variant] [])).map
        (fun aa => aa.star) = ["*4", "*2"] ∧
    ("*2/*4" : String) ≠ "*4/*2" := by decide

/-- C5 (amended): with two or more distinct matched alleles the resolver
sorts candidates ascending by activity (the sorted list is an ordered
permutation of the candidates) and fills the two allele slots with the two
lowest activities — unless some allele is homozygous-variant, in which case
the first such allele of the sorted order fills both slots; the diplotype
string, however, is built from the first two star-allele labels in the
*insertion* (collection) order, not the sorted order. -/
theorem claim_C5_compound_het :
    ∀ (a b : AlleleActivity) (rest : List AlleleActivity),
      (sortByActivity (a :: b :: rest)).Perm (a :: b :: rest) ∧
      (sortByActivity (a :: b :: rest)).Pairwise actLE ∧
      buildDiplotype (a :: b :: rest) = a.star ++ "/" ++ b.star ∧
      ((sortByActivity (a :: b :: rest)).find? (fun v => isHomozygousVariant v.genotype) =
          Option.none →
        resolveAlleles (a :: b :: rest) =
          (((sortByActivity (a :: b :: rest)).headD default).activity,
           ((sortByActivity (a :: b :: rest)).getD 1 default).activity)) ∧
      (∀ h, (sortByActivity (a :: b :: rest)).find? (fun v => isHomozygousVariant v.genotype) =
          some h →
        resolveAlleles (a :: b :: rest) = (h.activity, h.activity)) := by
  intro a b rest
  have hlen : 2 ≤ (sortByActivity (a :: b :: rest)).length := by
    have hp := (List.perm_insertionSort actLE (a :: b :: rest)).length_eq
    unfold sortByActivity
    rw [hp]
    simp
  refine ⟨List.perm_insertionSort actLE _, List.sorted_insertionSort actLE _, rfl, ?_, ?_⟩
  · intro hf
    simp only [resolveAlleles, hf, if_pos hlen]
  · intro h hf
    simp only [resolveAlleles, hf]

/-- C5 (witness): heterozygous `*10` (0.25) collected before heterozygous
`*4` (0): slots take (0, 0.25) — the two lowest, sorted — while the
diplotype keeps insertion order `"*10/*4"`. -/
theorem claim_C5_witness :
    buildDiplotype [⟨"*10", 0.25, "0/1"⟩, ⟨"*4", 0, "0/1"⟩] = "*10/*4" ∧
    resolveAlleles [⟨"*10", 0.25, "0/1"⟩, ⟨"*4", 0, "0/1"⟩] = (0, 0.25) := by
  have h := claim_C5_compound_het ⟨"*10", 0.25, "0/1"⟩ ⟨"*4", 0, "0/1"⟩ []
  refine ⟨h.2.2.1, ?_⟩
  rw [h.2.2.2.1 (by decide)]
  decide

/-- Any record the matcher promotes to a variant was emitted with
`record.genotype || '0/1'` under a passing zygosity guard, so its genotype
is never homozygous-reference. -/
theorem carry_push_genotype (r : VCFRecord) (h : doesCarryVariant r = true) :
    jsOrD r.genotype "0/1" ≠ "0/0" ∧ jsOrD r.genotype "0/1" ≠ "0|0" := by
  unfold doesCarryVariant at h
  cases hg : r.genotype with
  | none => exact ⟨by decide, by decide⟩
  | some s =>
    rw [hg] at h
    by_cases hs : s = ""
    · subst hs
      exact ⟨by decide, by decide⟩
    · simp only [jsOrD, hs, if_false] at h ⊢
      simp at h
      exact h

theorem mem_addCov_self (g : GeneSymbol) (l : List GeneSymbol) : g ∈ addCov g l := by
  unfold addCov
  split
  · next hcon => exact List.mem_of_elem_eq_true hcon
  · exact List.mem_append_right _ (List.mem_singleton_self g)

theorem mem_addCov_of_mem {x : GeneSymbol} (g : GeneSymbol) {l : List GeneSymbol}
    (h : x ∈ l) : x ∈ addCov g l := by
  unfold addCov
  split
  · exact h
  · exact List.mem_append_left _ h

/-- A loop iteration of the matcher only ever grows the covered-gene set. -/
theorem extractStep_covered_mono (st : ExtractState) (r : VCFRecord) {x : GeneSymbol}
    (h : x ∈ st.coveredGenes) : x ∈ (extractStep st r).coveredGenes := by
  unfold extractStep
  split
  · dsimp only
    split
    · split_ifs <;> exact mem_addCov_of_mem _ h
    · exact h
  · dsimp only
    split_ifs <;> exact mem_addCov_of_mem _ h

/-- When the record matches a catalog entry, the iteration's covered-gene
set is exactly the old set with the entry's gene added. -/
theorem extractStep_covered_match (st : ExtractState) (r : VCFRecord)
    (m : VariantDefinition) (meth : String) (h : matchRecord r = some (m, meth)) :
    (extractStep st r).coveredGenes = addCov m.gene st.coveredGenes := by
  simp only [extractStep, h]
  split_ifs <;> rfl

/-- When the record fails to match but its annotation names a supported
gene, that gene is added to the covered-gene set. -/
theorem extractStep_covered_fallback (st : ExtractState) (r : VCFRecord)
    (g : GeneSymbol) (hm : matchRecord r = Option.none)
    (hg : geneFromString (fallbackGeneName r) = some g) :
    (extractStep st r).coveredGenes = addCov g st.coveredGenes := by
  simp only [extractStep, hm, hg]
  split_ifs <;> rfl

theorem extractGo_covered_mono :
    ∀ (records : List VCFRecord) (st : ExtractState) {x : GeneSymbol},
      x ∈ st.coveredGenes → x ∈ (extractGo st records).coveredGenes := by
  intro records
  induction records with
  | nil => intro st x h; exact h
  | cons r rs ih =>
    intro st x h
    exact ih (extractStep st r) (extractStep_covered_mono st r h)

theorem extractGo_covers_match :
    ∀ (records : List VCFRecord) (st : ExtractState) (r : VCFRecord), r ∈ records →
      ∀ (m : VariantDefinition) (meth : String), matchRecord r = some (m, meth) →
        m.gene ∈ (extractGo st records).coveredGenes := by
  intro records
  induction records with
  | nil => intro st r h; exact absurd h (List.not_mem_nil r)
  | cons r' rs ih =>
    intro st r hmem m meth hm
    rcases List.mem_cons.mp hmem with heq | htail
    · subst heq
      refine extractGo_covered_mono rs (extractStep st r) ?_
      rw [extractStep_covered_match st r m meth hm]
      exact mem_addCov_self _ _
    · exact ih (extractStep st r') r htail m meth hm

theorem extractGo_covers_fallback :
    ∀ (records : List VCFRecord) (st : ExtractState) (r : VCFRecord), r ∈ records →
      matchRecord r = Option.none →
      ∀ g : GeneSymbol, geneFromString (fallbackGeneName r) = some g →
        g ∈ (extractGo st records).coveredGenes := by
  intro records
  induction records with
  | nil => intro st r h; exact absurd h (List.not_mem_nil r)
  | cons r' rs ih =>
    intro st r hmem hm g hg
    rcases List.mem_cons.mp hmem with heq | htail
    · subst heq
      refine extractGo_covered_mono rs (extractStep st r) ?_
      rw [extractStep_covered_fallback st r g hm hg]
      exact mem_addCov_self _ _
    · exact ih (extractStep st r') r htail hm g hg

/-- Any member of `l ++ [nv]` is an old member or the new element. -/
theorem push_case (l : List DetectedVariant) (nv v : DetectedVariant)
    (hv : v ∈ l ++ [nv])
    (hl : ∀ w ∈ l, w.genotype ≠ "0/0" ∧ w.genotype ≠ "0|0")
    (hnv : nv.genotype ≠ "0/0" ∧ nv.genotype ≠ "0|0") :
    v.genotype ≠ "0/0" ∧ v.genotype ≠ "0|0" := by
  rcases List.mem_append.mp hv with h | h
  · exact hl v h
  · rw [List.mem_singleton.mp h]
    exact hnv

/-- A loop iteration preserves "no emitted variant is homozygous-reference":
every variant it appends carries the record's non-reference genotype. -/
theorem extractStep_variants_not_homref (st : ExtractState) (r : VCFRecord)
    (hst : ∀ v ∈ st.variants, v.genotype ≠ "0/0" ∧ v.genotype ≠ "0|0") :
    ∀ v ∈ (extractStep st r).variants, v.genotype ≠ "0/0" ∧ v.genotype ≠ "0|0" := by
  intro v
  unfold extractStep
  split
  · dsimp only
    split
    · split_ifs <;> intro hv <;>
        first
          | exact hst v hv
          | exact push_case _ _ v hv hst (carry_push_genotype r (by simp_all))
    · intro hv
      exact hst v hv
  · dsimp only
    split_ifs <;> intro hv <;>
      first
        | exact hst v hv
        | exact push_case _ _ v hv hst (carry_push_genotype r (by simp_all))

theorem extractGo_variants_not_homref :
    ∀ (records : List VCFRecord) (st : ExtractState),
      (∀ v ∈ st.variants, v.genotype ≠ "0/0" ∧ v.genotype ≠ "0|0") →
      ∀ v ∈ (extractGo st records).variants, v.genotype ≠ "0/0" ∧ v.genotype ≠ "0|0" := by
  intro records
  induction records with
  | nil => intro st h; exact h
  | cons r rs ih =>
    intro st h
    exact ih (extractStep st r) (extractStep_variants_not_homref st r h)

/-- C4: the matcher never emits a homozygous-reference variant — every
emitted `DetectedVariant` has a genotype other than `0/0`/`0|0` — yet a
`0/0`/`0|0` record still marks its gene covered, whether it lands on a known
catalog locus (rsID or coordinate match) or merely names a supported gene in
its annotation. -/
theorem claim_C4_homref_exclusion_coverage :
    ∀ records : List VCFRecord,
      (∀ v ∈ (extractPharmaVariants records).variants,
          v.genotype ≠ "0/0" ∧ v.genotype ≠ "0|0") ∧
      (∀ r ∈ records, (r.genotype = some "0/0" ∨ r.genotype = some "0|0") →
        (∀ (m : VariantDefinition) (meth : String), matchRecord r = some (m, meth) →
            m.gene ∈ (extractPharmaVariants records).coveredGenes) ∧
        (matchRecord r = Option.none →
          ∀ g : GeneSymbol, geneFromString (fallbackGeneName r) = some g →
            g ∈ (extractPharmaVariants records).coveredGenes)) := by
  intro records
  constructor
  · exact extractGo_variants_not_homref records _ (by intro v hv; exact absurd hv (List.not_mem_nil v))
  · intro r hmem _
    exact ⟨fun m meth hm => extractGo_covers_match records _ r hmem m meth hm,
           fun hm g hg => extractGo_covers_fallback records _ r hmem hm g hg⟩

/-- C4 (witness): a single homozygous-reference record at the CYP2D6 `*4`
locus yields no detected variant while CYP2D6 is covered. -/
theorem claim_C4_witness :
    (extractPharmaVariants [homRefRecord]).variants = [] ∧
    GeneSymbol.CYP2D6 ∈ (extractPharmaVariants [homRefRecord]).coveredGenes := by
  refine ⟨by decide, ?_⟩
  have h := (claim_C4_homref_exclusion_coverage [homRefRecord]).2 homRefRecord
    (List.mem_singleton_self _) (Or.inl (by decide))
  exact h.1 cyp2d6Star4 "rsID" (by decide)

/-- Whatever branch of the post-position parsing emits a record, the
record's `pos` field is the parsed position. -/
theorem parseRecordFields_pos (n : Nat) (fields : List String) (posNum : Int)
    (rcd : VCFRecord) (ws : List ParseWarning)
    (h : parseRecordFields n fields posNum = (some rcd, ws)) : rcd.pos = posNum := by
  unfold parseRecordFields at h
  dsimp only at h
  split_ifs at h <;>
    simp only [Prod.mk.injEq, Option.some.injEq, reduceCtorEq, false_and] at h
  all_goals rw [← h.1]

/-- C8: a line that survives the minimum-column check but whose position
field does not `parseInt` is skipped with an error-severity `POS` warning,
and every record the per-line parser emits has its `pos` equal to the parsed
integer value of its position field. -/
theorem claim_C8_position_parsing :
    ∀ (n : Nat) (fields : List String),
      (jsParseInt (fields.getD 1 "") = Option.none →
        parseFields n fields = (Option.none, [⟨n, "POS", .error⟩])) ∧
      (∀ (rcd : VCFRecord) (ws : List ParseWarning),
        parseFields n fields = (some rcd, ws) →
        jsParseInt (fields.getD 1 "") = some rcd.pos) := by
  intro n fields
  constructor
  · intro h
    simp only [parseFields, h]
  · intro rcd ws h
    cases hp : jsParseInt (fields.getD 1 "") with
    | none =>
      simp only [parseFields, hp, Prod.mk.injEq, reduceCtorEq, false_and] at h
    | some posNum =>
      simp only [parseFields, hp] at h
      rw [parseRecordFields_pos n fields posNum rcd ws h]

/-- C8 (witness): position field `abc` skips line 3 with an error warning;
a well-formed line's record takes `pos = 42526694`. -/
theorem claim_C8_witness :
    jsParseInt "abc" = Option.none ∧
    parseFields 3 ["22", "abc", "rs1", "C", "T"] = (Option.none, [⟨3, "POS", .error⟩]) ∧
    jsParseInt "42526694" =
      some (({ chrom := "22", pos := 42526694, id := "rs3892097", ref := "C", alt := "T",
               qual := ".", filter := ".", info := [], format := Option.none,
               genotype := some "1/1" } : VCFRecord)).pos := by
  refine ⟨by decide, (claim_C8_position_parsing 3 ["22", "abc", "rs1", "C", "T"]).1 (by decide), ?_⟩
  exact (claim_C8_position_parsing 1 ["22", "42526694", "rs3892097", "C", "T"]).2 _
    [⟨1, "QUAL", .info⟩, ⟨1, "FORMAT", .info⟩] (by decide)

/-- `analyzeVCF` reports exactly the validation pre-pass's fatal error. -/
theorem analyzeVCF_error_eq (c : String) : (analyzeVCF c).error = validateVCF c := by
  unfold analyzeVCF
  cases h : validateVCF c
  · dsimp only
    split <;> rfl
  · rfl

/-- C9: the pipeline is total by construction (every run returns an
ordinary value), and a top-level error occurs exactly when the validation
pre-pass fails (empty file, headers-only file, or no five-column line) or no
requested drug normalizes to a supported drug; whenever an error is
reported, the result list is empty. -/
theorem claim_C9_totality :
    ∀ (vcfContent : String) (drugs : List String),
      ((runFullAnalysis vcfContent drugs).error.isSome ↔
        (validateVCF vcfContent).isSome ∨
          ((drugs.map (fun d => jsToUpper (jsTrim d))).filterMap drugFromString) = []) ∧
      ((runFullAnalysis vcfContent drugs).results = [] ∨
        (runFullAnalysis vcfContent drugs).error = Option.none) := by
  intro c drugs
  have he := analyzeVCF_error_eq c
  unfold runFullAnalysis
  dsimp only
  cases h : (analyzeVCF c).error with
  | some e =>
    rw [h] at he
    rw [← he]
    exact ⟨by simp, Or.inl rfl⟩
  | none =>
    rw [h] at he
    rw [← he]
    cases hd : ((drugs.map (fun d => jsToUpper (jsTrim d))).filterMap drugFromString).isEmpty with
    | true =>
      rw [List.isEmpty_iff] at hd
      simp [hd]
    | false =>
      have hne : ((drugs.map (fun d => jsToUpper (jsTrim d))).filterMap drugFromString) ≠ [] := by
        intro hnil
        rw [hnil] at hd
        simp at hd
      simp only [hd, Bool.false_eq_true, if_false]
      refine ⟨iff_of_false (by simp) ?_, Or.inr (by trivial)⟩
      rintro (hcontra | hcontra)
      · simp at hcontra
      · exact hne hcontra

/-- Every analysis result carries the drug it was computed for. -/
theorem assessDrugRisk_drug (d : DrugName) (profiles : List GeneProfile) (tv : Nat)
    (cov : List GeneSymbol) : (assessDrugRisk d profiles tv cov).drug = d := by
  unfold assessDrugRisk
  cases h : profiles.find? (fun p => p.gene == DRUG_GENE_MAP d)
  · simp only [h, createWildTypeResult]
    split <;> rfl
  · simp only [h]

/-- C10: on a valid variant file the entry point trims and upper-cases each
requested drug name and keeps exactly the supported ones, in order: if none
survives it returns the supported-drug error with no results, and otherwise
it returns one result per surviving drug (in order) with no error, the
warnings being those of the file analysis alone — an unsupported name
contributes neither a result nor a warning. -/
theorem claim_C10_drug_normalization :
    ∀ (vcfContent : String) (drugs : List String),
      validateVCF vcfContent = Option.none →
      ((((drugs.map (fun d => jsToUpper (jsTrim d))).filterMap drugFromString) = [] →
        runFullAnalysis vcfContent drugs =
          ⟨[], (analyzeVCF vcfContent).warnings,
            some ("No supported drugs provided. Supported: " ++
              String.intercalate ", " SUPPORTED_DRUGS)⟩) ∧
       (((drugs.map (fun d => jsToUpper (jsTrim d))).filterMap drugFromString) ≠ [] →
        (runFullAnalysis vcfContent drugs).error = Option.none ∧
        (runFullAnalysis vcfContent drugs).results.map (fun r => r.drug) =
          (drugs.map (fun d => jsToUpper (jsTrim d))).filterMap drugFromString ∧
        (runFullAnalysis vcfContent drugs).warnings = (analyzeVCF vcfContent).warnings)) := by
  intro c drugs hv
  have he : (analyzeVCF c).error = Option.none := by rw [analyzeVCF_error_eq, hv]
  constructor
  · intro hd
    unfold runFullAnalysis
    dsimp only
    rw [he, hd]
    rfl
  · intro hd
    unfold runFullAnalysis
    dsimp only
    rw [he]
    have hdb : ((drugs.map (fun d => jsToUpper (jsTrim d))).filterMap drugFromString).isEmpty
        = false := by
      rw [Bool.eq_false_iff]
      intro ht
      exact hd (List.isEmpty_iff.mp ht)
    simp only [hdb, Bool.false_eq_true, if_false]
    refine ⟨by trivial, ?_, by trivial⟩
    rw [List.map_map]
    exact List.map_congr_left (fun d _ => assessDrugRisk_drug d _ _ _) |>.trans (List.map_id _)

/-- C10 (witness): on the sample file, `" codeine "` normalizes to CODEINE
and `"ASPIRIN"` is dropped silently; aspirin alone yields the
supported-drug error and no results. -/
theorem claim_C10_witness :
    (runFullAnalysis sampleVCF [" codeine ", "ASPIRIN"]).error = Option.none ∧
    (runFullAnalysis sampleVCF [" codeine ", "ASPIRIN"]).results.map (fun r => r.drug) =
      [DrugName.CODEINE] ∧
    (runFullAnalysis sampleVCF ["ASPIRIN"]).results = [] ∧
    (runFullAnalysis sampleVCF ["ASPIRIN"]).error =
      some "No supported drugs provided. Supported: CODEINE, WARFARIN, CLOPIDOGREL, SIMVASTATIN, AZATHIOPRINE, FLUOROURACIL" := by
  have h1 := claim_C10_drug_normalization sampleVCF [" codeine ", "ASPIRIN"] (by decide)
  have h2 := claim_C10_drug_normalization sampleVCF ["ASPIRIN"] (by decide)
  have h2' := h2.1 (by decide)
  refine ⟨(h1.2 (by decide)).1, ?_, ?_, ?_⟩
  · rw [(h1.2 (by decide)).2.1]
    decide
  · rw [h2']
  · rw [h2']
    decide

/-- C1: for every catalog CYP2D6 variant with activity value 0 and
no-function class, a file whose single data line encodes that variant
homozygous (`1/1` or `1|1`) yields exactly one gene profile — CYP2D6,
phenotype PM, diplotype the variant's star allele paired with itself — and
assessing CODEINE against those profiles yields risk label Toxic with
severity critical. -/
theorem claim_C1_pm_homozygous_toxic :
    ∀ v ∈ VARIANT_DATABASE, ∀ gt : String, (gt = "1/1" ∨ gt = "1|1") →
      v.gene = .CYP2D6 → v.activityValue = 0 → v.functionalStatus = .no_function →
      ((analyzeVCF (mkSingleVariantVCF v gt)).profiles.map
          (fun p => (p.gene, p.phenotype, p.diplotype)) =
        [(.CYP2D6, .PM, v.starAllele ++ "/" ++ v.starAllele)] ∧
      (assessDrugRisk .CODEINE (analyzeVCF (mkSingleVariantVCF v gt)).profiles
          (analyzeVCF (mkSingleVariantVCF v gt)).variants.length
          (analyzeVCF (mkSingleVariantVCF v gt)).coveredGenes).risk_label = .Toxic ∧
      (assessDrugRisk .CODEINE (analyzeVCF (mkSingleVariantVCF v gt)).profiles
          (analyzeVCF (mkSingleVariantVCF v gt)).variants.length
          (analyzeVCF (mkSingleVariantVCF v gt)).coveredGenes).severity = .critical) := by
  intro v hv gt hgt
  simp only [VARIANT_DATABASE, List.mem_cons, List.not_mem_nil, or_false] at hv
  set_option maxRecDepth 100000 in
  rcases hv with rfl | rfl | rfl | rfl | rfl | rfl | rfl | rfl | rfl | rfl | rfl | rfl | rfl |
    rfl | rfl | rfl | rfl | rfl | rfl | rfl | rfl | rfl | rfl | rfl | rfl | rfl | rfl <;>
    rcases hgt with rfl | rfl <;> decide

/-- C1 (witness): the `*4` catalog row (rs3892097), homozygous `1/1`. -/
theorem claim_C1_witness :
    cyp2d6Star4 ∈ VARIANT_DATABASE ∧
    cyp2d6Star4.gene = .CYP2D6 ∧
    cyp2d6Star4.activityValue = 0 ∧
    cyp2d6Star4.functionalStatus = .no_function ∧
    ((analyzeVCF (mkSingleVariantVCF cyp2d6Star4 "1/1")).profiles.map
        (fun p => (p.gene, p.phenotype, p.diplotype)) =
      [(.CYP2D6, .PM, "*4/*4")] ∧
    (assessDrugRisk .CODEINE (analyzeVCF (mkSingleVariantVCF cyp2d6Star4 "1/1")).profiles
        (analyzeVCF (mkSingleVariantVCF cyp2d6Star4 "1/1")).variants.length
        (analyzeVCF (mkSingleVariantVCF cyp2d6Star4 "1/1")).coveredGenes).risk_label = .Toxic ∧
    (assessDrugRisk .CODEINE (analyzeVCF (mkSingleVariantVCF cyp2d6Star4 "1/1")).profiles
        (analyzeVCF (mkSingleVariantVCF cyp2d6Star4 "1/1")).variants.length
        (analyzeVCF (mkSingleVariantVCF cyp2d6Star4 "1/1")).coveredGenes).severity
      = .critical) := by
  refine ⟨by decide, by decide, by decide, by decide, ?_⟩
  have h := claim_C1_pm_homozygous_toxic cyp2d6Star4 (by decide) "1/1" (Or.inl rfl)
    (by decide) (by decide) (by decide)
  have hstar : cyp2d6Star4.starAllele ++ "/" ++ cyp2d6Star4.starAllele = "*4/*4" := by decide
  rw [hstar] at h
  exact h

end Sanjeevani
